import Mathlib

/-!
Verification of the salon-dashboard core (appointment scheduling and the
tabular query layer) against its natural-language specification.

The definitions below are a shallow embedding of the Python source:

* `check_overlap`, `get_available_slots`, `save_booking` embed the inline
  booking helpers of `app.py` (the variants the spec describes: the
  spec's §9 notes the duplicated tab-module copies are to be
  consolidated into these).
* `today_sales`, `weekly_service_sales`, `monthly_service_sales`,
  `prev_week_service_sales`, `prev_month_service_sales`,
  `new_and_repeated_clients`, `get_staff_attendance_stats`,
  `get_leave_calendar_data` embed the corresponding functions of
  `query.py`.

Modelling conventions:

* A dataframe is a `List` of row structures; a cell that pandas may hold
  as NaN/NaT is an `Option`.
* Clock reads (`pd.Timestamp.now()` and its derived day/week/month/year)
  are passed as explicit parameters.
* Monetary values are `ℚ` (the float computations involved are exact on
  the values the claims mention).
* A Python exception is modelled explicitly where a claim depends on it:
  `check_overlap` returns `Option Bool` (`none` = uncaught `ValueError`
  while parsing the candidate slot), and the raw-input wrapper
  `get_staff_attendance_stats_raw` returns `Except String _`.
-/

namespace Dashboard

/-- Strip leading and trailing whitespace from a character list (the
whitespace stripping Python's `int` applies to its string argument). -/
def trimChars (l : List Char) : List Char :=
  ((l.dropWhile Char.isWhitespace).reverse.dropWhile Char.isWhitespace).reverse

/-- The numeric value of a decimal digit character, `none` otherwise. -/
def digitVal (c : Char) : Option Nat :=
  if c.isDigit then some (c.toNat - 48) else none

/-- Parse a nonempty all-digit character list as a natural number. -/
def digitsToNat (l : List Char) : Option Nat :=
  match l with
  | [] => none
  | _ :: _ =>
    l.foldl
      (fun acc c =>
        match acc, digitVal c with
        | some a, some d => some (a * 10 + d)
        | _, _ => none)
      (some 0)

/-- Python `int(s)` on a decimal string literal: optional sign after
stripping surrounding whitespace, then digits; `none` when the string
does not parse (`ValueError`). -/
def pyIntChars (l : List Char) : Option Int :=
  match trimChars l with
  | '-' :: rest => (digitsToNat rest).map (fun n => -(n : Int))
  | '+' :: rest => (digitsToNat rest).map (fun n => (n : Int))
  | t => (digitsToNat t).map (fun n => (n : Int))

/-- `int(s)` on a `String`. -/
def pyInt (s : String) : Option Int :=
  pyIntChars s.data

/-- Python `s.split(':')` on a character list: `[[]]` for the empty
string, a new group after every colon. -/
def splitOnColon (l : List Char) : List (List Char) :=
  match l with
  | [] => [[]]
  | c :: rest =>
    let r := splitOnColon rest
    if c == ':' then [] :: r
    else
      match r with
      | h :: t => (c :: h) :: t
      | [] => [[c]]

/-- `req_h, req_m = map(int, time_slot.split(':'))` followed by
`req_h*60 + req_m`: minutes from midnight, `none` when the stored
time-of-day does not split into exactly two `int`-parsable fields. -/
def parseSlot (s : String) : Option Int :=
  match splitOnColon s.data with
  | [h, m] =>
    match pyIntChars h, pyIntChars m with
    | some hh, some mm => some (hh * 60 + mm)
    | _, _ => none
  | _ => none

/-- One row of the appointments table (`appointments.csv`).
`date` is the parsed `Appointment Date` (`none` = NaT from
`pd.to_datetime(..., errors='coerce')`); `timeSlot` is the raw stored
`Time Slot` string; `duration` is the `Duration` column in minutes. -/
structure Appointment where
  id : String
  employee : String
  date : Option Int
  timeSlot : String
  duration : Int
  status : String
deriving DecidableEq, Repr

/-- `df['Status'].isin(['Confirmed','Pending'])`. -/
def statusActive (st : String) : Bool :=
  st == "Confirmed" || st == "Pending"

/-- The employee / calendar-date / status row filter of `check_overlap`. -/
def matchesFilter (employee : String) (date : Int) (a : Appointment) : Bool :=
  a.employee == employee && a.date == some date && statusActive a.status

/-- `if exclude_id: filtered = filtered[filtered['Appointment ID'] != exclude_id]`
— Python truthiness: `None` and the empty string both skip the filter. -/
def applyExclude (excludeId : Option String) (l : List Appointment) : List Appointment :=
  match excludeId with
  | some e => if e ≠ "" then l.filter (fun a => a.id ≠ e) else l
  | none => l

/-- The per-row test of the `check_overlap` loop: parse the stored
time-of-day (a row whose `Time Slot` fails to parse is skipped, i.e.
contributes `false` — the `except: continue`), then the half-open
interval test `req_start < exist_end and req_end > exist_start`. -/
def rowOverlaps (reqStart reqEnd : Int) (a : Appointment) : Bool :=
  match parseSlot a.timeSlot with
  | none => false
  | some es => decide (reqStart < es + a.duration) && decide (reqEnd > es)

/-- `check_overlap(appts, employee, date, time_slot, duration, exclude_id)`
from `app.py`.  Result `none` models the uncaught `ValueError` raised
when the candidate `time_slot` itself does not parse (only reachable
after the two early `return False` paths). -/
def check_overlap (appts : List Appointment) (employee : String) (date : Int)
    (timeSlot : String) (duration : Int) (excludeId : Option String) : Option Bool :=
  if appts.isEmpty then some false
  else
    let filtered := applyExclude excludeId (appts.filter (matchesFilter employee date))
    if filtered.isEmpty then some false
    else
      match parseSlot timeSlot with
      | none => none
      | some reqStart =>
        some (filtered.any (rowOverlaps reqStart (reqStart + duration)))

/-- `f"{n:02d}"` for the slot labels. -/
def pad2 (n : Nat) : String :=
  if n < 10 then "0" ++ toString n else toString n

/-- The fixed slot enumeration of `get_available_slots`:
`for hour in range(9, 20): for minute in [0, 30]`. -/
def allSlots : List String :=
  ((List.range' 9 11).map (fun h => [pad2 h ++ ":" ++ pad2 0, pad2 h ++ ":" ++ pad2 30])).flatten

/-- `get_available_slots(appointments_df, employee, date, duration)` from
`app.py`: keep each enumerated slot whose `check_overlap` is `False`.
(For every enumerated slot the candidate parses, so `check_overlap`
never raises here — see `check_overlap_allSlots_isSome`.) -/
def get_available_slots (appts : List Appointment) (employee : String)
    (date : Int) (duration : Int) : List String :=
  allSlots.filter (fun s => decide (check_overlap appts employee date s duration none = some false))

/-- `str(x).startswith("APT")`. -/
def startsWithAPT (s : String) : Bool :=
  ['A', 'P', 'T'].isPrefixOf s.data

/-- `str(x).replace("APT", "")`: remove every (left-to-right,
non-overlapping) occurrence of `APT`. -/
def replaceAPT : List Char → List Char
  | 'A' :: 'P' :: 'T' :: rest => replaceAPT rest
  | c :: rest => c :: replaceAPT rest
  | [] => []

/-- The suffix scan of `save_booking`'s id generation:
`int(str(x).replace("APT","")) for x in ids if str(x).startswith("APT")`.
`none` models the `ValueError` of a failing `int(...)`. -/
def apt_suffixes (ids : List String) : Option (List Int) :=
  (ids.filter startsWithAPT).mapM (fun x => pyIntChars (replaceAPT x.data))

/-- The id generation of `save_booking` in `app.py`: `"APT1000"` for an
empty table, else max numeric suffix + 1 over `APT`-prefixed ids, with
the `except` fallback `"APT1000"` both when some `int(...)` fails and
when `max()` sees an empty sequence (no id matches the prefix). -/
def new_appointment_id (appts : List Appointment) : String :=
  if appts.isEmpty then "APT1000"
  else
    match apt_suffixes (appts.map (fun a => a.id)) with
    | none => "APT1000"
    | some [] => "APT1000"
    | some (s :: rest) => "APT" ++ toString (rest.foldl max s + 1)

/-- `save_booking(appointments_df, data)`: generate the id, stamp it on
the payload, append the row; persistence (`save_csv`) is the injected
side effect outside the core, so the result is the id together with the
appended table. -/
def save_booking (appts : List Appointment) (data : Appointment) : String × List Appointment :=
  let newId := new_appointment_id appts
  (newId, appts ++ [{ data with id := newId }])

/-! ## Query layer (`query.py`) -/

/-- Calendar projections of a parsed timestamp, as the pandas accessors
used by the period masks read them: normalized calendar day
(`dt.normalize()` / `dt.date`), ISO week number (`dt.isocalendar().week`),
month (`dt.month`) and year (`dt.year`). -/
structure Ts where
  day : Int
  week : Int
  month : Int
  year : Int
deriving DecidableEq, Repr

/-- One service-transaction row after `preprocess_data`: `ts` is the
parsed `Timestamp` (`none` = NaT, excluded by every mask below),
`phone` the `Phone Number` cell (`none` = NaN), `billAmount` the
`Bill Amount` cell (`none` = NaN / unparsable, excluded from sums). -/
structure SaleRow where
  name : String
  phone : Option String
  ts : Option Ts
  billAmount : Option ℚ
deriving DecidableEq, Repr

/-- `df['Timestamp'].dt.normalize() == today` — NaT compares `False`. -/
def onDay (nowDay : Int) (r : SaleRow) : Bool :=
  match r.ts with
  | some t => t.day == nowDay
  | none => false

/-- `dt.date < today` for the strictly-before-today filter of
`new_and_repeated_clients` — NaT compares `False`. -/
def beforeDay (nowDay : Int) (r : SaleRow) : Bool :=
  match r.ts with
  | some t => decide (t.day < nowDay)
  | none => false

/-- `(dt.isocalendar().week == w) & (dt.year == y)`. -/
def inWeek (w y : Int) (r : SaleRow) : Bool :=
  match r.ts with
  | some t => t.week == w && t.year == y
  | none => false

/-- `(dt.month == m) & (dt.year == y)`. -/
def inMonth (m y : Int) (r : SaleRow) : Bool :=
  match r.ts with
  | some t => t.month == m && t.year == y
  | none => false

/-- `df.loc[mask, "Bill Amount"].sum(min_count=1)` followed by
`float(total) if pd.notna(total) else 0.0`: NaN amounts are excluded
from the sum, and an empty or all-NaN selection yields `0.0`. -/
def sumBill (l : List SaleRow) : ℚ :=
  (l.filterMap (fun r => r.billAmount)).foldl (fun a b => a + b) 0

/-- `today_sales(df)` of `query.py`; the clock-derived current day is the
explicit parameter `nowDay`. -/
def today_sales (nowDay : Int) (rows : List SaleRow) : ℚ :=
  sumBill (rows.filter (onDay nowDay))

/-- `weekly_service_sales(df)`; `w`, `y` are the clock-derived current
ISO week and year. -/
def weekly_service_sales (w y : Int) (rows : List SaleRow) : ℚ :=
  sumBill (rows.filter (inWeek w y))

/-- `monthly_service_sales(df)`; `m`, `y` are the clock-derived current
month and year. -/
def monthly_service_sales (m y : Int) (rows : List SaleRow) : ℚ :=
  sumBill (rows.filter (inMonth m y))

/-- `prev_week_service_sales(df)`; `pw`, `py` are the week and year of
`now - timedelta(weeks=1)`. -/
def prev_week_service_sales (pw py : Int) (rows : List SaleRow) : ℚ :=
  sumBill (rows.filter (inWeek pw py))

/-- `prev_month_service_sales(df)`; `pm`, `py` are the month and year of
the last day of the previous month. -/
def prev_month_service_sales (pm py : Int) (rows : List SaleRow) : ℚ :=
  sumBill (rows.filter (inMonth pm py))

/-- `row['Phone Number'].astype(str)` on a single cell: pandas renders a
NaN cell as the string `"nan"`. -/
def phone_str (r : SaleRow) : String :=
  match r.phone with
  | some p => p
  | none => "nan"

/-- `new_and_repeated_clients(df)` of `query.py` (clock-derived `today`
as parameter): split today's rows by whether their client identifier is
among the non-null phone numbers of strictly-earlier rows, and return
the two row counts `(len(new_clients), len(repeated))`. -/
def new_and_repeated_clients (today : Int) (rows : List SaleRow) : Nat × Nat :=
  let past := rows.filter (beforeDay today)
  let todayRows := rows.filter (onDay today)
  let pastPhones := past.filterMap (fun r => r.phone)
  let newClients := todayRows.filter (fun r => !pastPhones.contains (phone_str r))
  let repeated := todayRows.filter (fun r => pastPhones.contains (phone_str r))
  (newClients.length, repeated.length)

/-- Follows the spec's words (claim C6), for comparison with
`new_and_repeated_clients`: "partition today's transactions by whether
the client identifier appeared in any transaction strictly before today.
Count of **distinct clients** in each partition." -/
def new_and_repeated_clients_distinct (today : Int) (rows : List SaleRow) : Nat × Nat :=
  let past := rows.filter (beforeDay today)
  let todayRows := rows.filter (onDay today)
  let pastPhones := past.filterMap (fun r => r.phone)
  let newClients := todayRows.filter (fun r => !pastPhones.contains (phone_str r))
  let repeated := todayRows.filter (fun r => pastPhones.contains (phone_str r))
  ((newClients.map phone_str).dedup.length, (repeated.map phone_str).dedup.length)

/-- One attendance row (`attendance.csv`): staff name, parsed date
(`none` = NaT; the computation never reads it), status string. -/
structure AttRow where
  staffName : String
  date : Option Int
  status : String
deriving DecidableEq, Repr

/-- One output row of `get_staff_attendance_stats`. -/
structure AttStat where
  staffName : String
  total_days : Nat
  present_days : Nat
  attendance_pct : ℚ
deriving DecidableEq, Repr

/-- `round(x, 2)`: round to 2 decimal places.  (Our rationals are exact,
so the half-even-versus-half-up tie difference of binary floats never
arises in the properties proved here.) -/
def round2 (q : ℚ) : ℚ :=
  (round (q * 100) : ℚ) / 100

/-- `get_staff_attendance_stats(df)` of `query.py`: group by staff name
(pandas `groupby` sorts the group keys), `total_days` = rows in the
group, `present_days` = rows with status `Present`, percentage =
`present/total * 100` rounded to 2 decimals. -/
def get_staff_attendance_stats (rows : List AttRow) : List AttStat :=
  let keys := ((rows.map (fun r => r.staffName)).dedup).insertionSort (fun a b => a ≤ b)
  keys.map (fun n =>
    let grp := rows.filter (fun r => r.staffName == n)
    let total := grp.length
    let present := (grp.filter (fun r => r.status == "Present")).length
    { staffName := n, total_days := total, present_days := present,
      attendance_pct := round2 ((present : ℚ) / (total : ℚ) * 100) })

/-- The raw argument `get_staff_attendance_stats` actually receives from
its caller: possibly `None`, and — because the loader falls back to a
column-less `pd.DataFrame()` — possibly missing the expected columns.
The flags record which expected columns are present. -/
structure RawAttTable where
  hasDateCol : Bool
  hasStaffNameCol : Bool
  hasStatusCol : Bool
  rows : List AttRow
deriving DecidableEq, Repr

/-- `get_staff_attendance_stats` on its raw input domain.  Unlike every
sibling query function, the source has no `df is None or df.empty`
guard, so `df.copy()` on `None` raises `AttributeError`, and the column
accesses `df2["Date"]` / `groupby("Staff Name")` / `("Status", ...)`
raise `KeyError` when the column is absent. -/
def get_staff_attendance_stats_raw (t : Option RawAttTable) : Except String (List AttStat) :=
  match t with
  | none => .error "AttributeError: NoneType object has no attribute copy"
  | some t =>
    if !t.hasDateCol then .error "KeyError: Date"
    else if !t.hasStaffNameCol then .error "KeyError: Staff Name"
    else if !t.hasStatusCol then .error "KeyError: Status"
    else .ok (get_staff_attendance_stats t.rows)

/-- One leave-record row (`leave_records.csv`): staff name, parsed
`From Date` / `To Date` (`none` = NaT), status string. -/
structure LeaveRow where
  staffName : String
  fromDate : Option Int
  toDate : Option Int
  status : String
deriving DecidableEq, Repr

/-- One expanded leave-calendar entry (a row of the intermediate
`leave_days` list of dicts). -/
structure LeaveDay where
  date : Int
  staff : String
deriving DecidableEq, Repr

/-- `pd.date_range(a, b)`: every calendar day from `a` to `b`
inclusive, empty when `a > b`. -/
def dateRange (a b : Int) : List Int :=
  (List.range (b + 1 - a).toNat).map (fun i : Nat => a + (i : Int))

/-- The expansion loop of `get_leave_calendar_data`: for each `Approved`
row with parsable `From Date` and `To Date` (rows with NaT are skipped),
one entry per day of the inclusive range, carrying the staff name. -/
def leave_days (rows : List LeaveRow) : List LeaveDay :=
  ((rows.filter (fun r => r.status == "Approved")).map (fun r =>
    match r.fromDate, r.toDate with
    | some a, some b => (dateRange a b).map (fun d => { date := d, staff := r.staffName })
    | _, _ => [])).flatten

/-- `get_leave_calendar_data(leave_df)` of `query.py`: expand, then
group the entries by calendar day (sorted ascending) with their counts. -/
def get_leave_calendar_data (rows : List LeaveRow) : List (Int × Nat) :=
  let entries := leave_days rows
  let keys := ((entries.map (fun x => x.date)).dedup).insertionSort (fun a b => a ≤ b)
  keys.map (fun d => (d, (entries.filter (fun x => x.date == d)).length))

/-! ## Example tables used in concrete parts of the claims -/

/-- A table holding exactly the ids `APT1000 .. APT1007`. -/
def exampleAppts : List Appointment :=
  ["APT1000", "APT1001", "APT1002", "APT1003",
   "APT1004", "APT1005", "APT1006", "APT1007"].map
    (fun i => { id := i, employee := "Asha", date := some 0, timeSlot := "09:00",
                duration := 30, status := "Completed" })

/-- 30 attendance rows for staff `A`, 27 of them `Present`. -/
def exampleAttTable : List AttRow :=
  List.replicate 27 { staffName := "A", date := none, status := "Present" } ++
    List.replicate 3 { staffName := "A", date := none, status := "Absent" }

/-- Two transactions of the same client on the same day, none earlier. -/
def c6Rows : List SaleRow :=
  [{ name := "Y", phone := some "111", ts := some { day := 10, week := 2, month := 1, year := 2026 },
     billAmount := none },
   { name := "Y", phone := some "111", ts := some { day := 10, week := 2, month := 1, year := 2026 },
     billAmount := none }]

/-- Client `X` with a transaction yesterday (day 9) and one today (day
10), client `Y` with only a transaction today. -/
def xyRows : List SaleRow :=
  [{ name := "X", phone := some "1", ts := some { day := 9, week := 2, month := 1, year := 2026 },
     billAmount := none },
   { name := "X", phone := some "1", ts := some { day := 10, week := 2, month := 1, year := 2026 },
     billAmount := none },
   { name := "Y", phone := some "2", ts := some { day := 10, week := 2, month := 1, year := 2026 },
     billAmount := none }]

/-! ## Helper lemmas -/

/-- Membership after the exclude-id filter, when the given id is not the
degenerate falsy sentinel `""`. -/
theorem mem_applyExclude {excludeId : Option String}
    (hex : ∀ e, excludeId = some e → e ≠ "") (a : Appointment) (l : List Appointment) :
    a ∈ applyExclude excludeId l ↔ a ∈ l ∧ ∀ e, excludeId = some e → a.id ≠ e := by
  cases excludeId with
  | none => simp [applyExclude]
  | some e =>
    have he : e ≠ "" := hex e rfl
    simp only [applyExclude, if_pos he, List.mem_filter, decide_eq_true_eq]
    constructor
    · rintro ⟨hmem, hne⟩
      exact ⟨hmem, fun e' he' => by injection he' with h; exact h ▸ hne⟩
    · rintro ⟨hmem, hall⟩
      exact ⟨hmem, hall e rfl⟩

/-- The row filter of `check_overlap`, as a proposition. -/
theorem matchesFilter_eq_true {employee : String} {date : Int} {a : Appointment} :
    matchesFilter employee date a = true ↔
      a.employee = employee ∧ a.date = some date ∧
        (a.status = "Confirmed" ∨ a.status = "Pending") := by
  simp [matchesFilter, statusActive, Bool.and_assoc, and_assoc]

/-- The per-row interval test of `check_overlap`, as a proposition. -/
theorem rowOverlaps_eq_true {reqStart reqEnd : Int} {a : Appointment} :
    rowOverlaps reqStart reqEnd a = true ↔
      ∃ es, parseSlot a.timeSlot = some es ∧ reqStart < es + a.duration ∧ reqEnd > es := by
  cases h : parseSlot a.timeSlot <;> simp [rowOverlaps, h]

/-- The exclude-id filter commutes with any other row filter. -/
theorem applyExclude_filter (excludeId : Option String) (p : Appointment → Bool)
    (l : List Appointment) :
    applyExclude excludeId (l.filter p) = (applyExclude excludeId l).filter p := by
  cases excludeId with
  | none => rfl
  | some e =>
    by_cases he : e = "" <;>
      simp [applyExclude, he, List.filter_filter, Bool.and_comm]

/-- Rows whose stored time-of-day fails to parse never witness an
overlap, so the `any` of the loop ignores them. -/
theorem any_rowOverlaps_filter (l : List Appointment) (reqStart reqEnd : Int) :
    (l.filter (fun a => (parseSlot a.timeSlot).isSome)).any (rowOverlaps reqStart reqEnd) =
      l.any (rowOverlaps reqStart reqEnd) := by
  induction l with
  | nil => rfl
  | cons a l ih =>
    cases h : parseSlot a.timeSlot with
    | none =>
      simp only [List.filter_cons, List.any_cons, h, Option.isSome_none, rowOverlaps, ih]
      simp [rowOverlaps, h, ih]
    | some es =>
      simp only [List.filter_cons, h, Option.isSome_some, List.any_cons, ih]
      simp [ih]

/-! ## Claim theorems -/

/-- C1: `hasOverlap` returns true iff some existing appointment for the
same employee and calendar date with status Confirmed or Pending (and
not equal to the excluded id, when a nonempty one is given) satisfies
the half-open test `candidateStart < existingEnd ∧ candidateEnd >
existingStart` on `[start, start+duration)` intervals in
minutes-from-midnight; in particular, adjacent slots (09:00 for 30
minutes against an existing 09:30 for 30 minutes) never report overlap,
and identical slots always report overlap. -/
theorem C1_overlap_iff :
    (∀ (appts : List Appointment) (employee : String) (date : Int)
        (timeSlot : String) (reqStart duration : Int) (excludeId : Option String),
      parseSlot timeSlot = some reqStart →
      (∀ e, excludeId = some e → e ≠ "") →
      (check_overlap appts employee date timeSlot duration excludeId = some true ↔
        ∃ a ∈ appts, a.employee = employee ∧ a.date = some date ∧
          (a.status = "Confirmed" ∨ a.status = "Pending") ∧
          (∀ e, excludeId = some e → a.id ≠ e) ∧
          ∃ es, parseSlot a.timeSlot = some es ∧
            reqStart < es + a.duration ∧ reqStart + duration > es))
    ∧ check_overlap
        [{ id := "APT1000", employee := "Asha", date := some 0, timeSlot := "09:30",
           duration := 30, status := "Confirmed" }] "Asha" 0 "09:00" 30 none = some false
    ∧ check_overlap
        [{ id := "APT1000", employee := "Asha", date := some 0, timeSlot := "09:00",
           duration := 30, status := "Confirmed" }] "Asha" 0 "09:00" 30 none = some true := by
  refine ⟨?_, by decide, by decide⟩
  intro appts employee date timeSlot reqStart duration excludeId hts hex
  by_cases happts : appts.isEmpty
  · rw [List.isEmpty_iff] at happts
    subst happts
    simp [check_overlap]
  · rw [check_overlap, if_neg happts]
    by_cases hfil : (applyExclude excludeId (appts.filter (matchesFilter employee date))).isEmpty
    · rw [if_pos hfil]
      rw [List.isEmpty_iff] at hfil
      simp only [Option.some.injEq, Bool.false_eq_true, false_iff]
      rintro ⟨a, hmem, hemp, hdate, hstatus, hexid, hov⟩
      have : a ∈ applyExclude excludeId (appts.filter (matchesFilter employee date)) := by
        rw [mem_applyExclude hex]
        exact ⟨List.mem_filter.mpr ⟨hmem, matchesFilter_eq_true.mpr ⟨hemp, hdate, hstatus⟩⟩, hexid⟩
      rw [hfil] at this
      exact absurd this (List.not_mem_nil a)
    · rw [if_neg hfil, hts]
      simp only [Option.some.injEq, List.any_eq_true]
      constructor
      · rintro ⟨a, hmem, hov⟩
        rw [mem_applyExclude hex] at hmem
        obtain ⟨hmem, hexid⟩ := hmem
        rw [List.mem_filter] at hmem
        obtain ⟨hmem, hmf⟩ := hmem
        obtain ⟨hemp, hdate, hstatus⟩ := matchesFilter_eq_true.mp hmf
        exact ⟨a, hmem, hemp, hdate, hstatus, hexid, rowOverlaps_eq_true.mp hov⟩
      · rintro ⟨a, hmem, hemp, hdate, hstatus, hexid, hov⟩
        refine ⟨a, ?_, rowOverlaps_eq_true.mpr hov⟩
        rw [mem_applyExclude hex]
        exact ⟨List.mem_filter.mpr ⟨hmem, matchesFilter_eq_true.mpr ⟨hemp, hdate, hstatus⟩⟩, hexid⟩

/-- Witness for C1 at a concrete input: one stored appointment from
09:00 for 45 minutes, candidate 09:30 for 30 minutes, a nonempty
excluded id different from the stored one — the overlap is reported. -/
theorem C1_overlap_iff_witness :
    check_overlap
      [{ id := "APT1001", employee := "Asha", date := some 3, timeSlot := "09:00",
         duration := 45, status := "Pending" }] "Asha" 3 "09:30" 30 (some "APT9") = some true := by
  refine (C1_overlap_iff.1 _ "Asha" 3 "09:30" 570 30 (some "APT9") (by decide)
    (fun e he => by injection he with h; subst h; decide)).mpr ?_
  refine ⟨_, List.mem_singleton.mpr rfl, rfl, rfl, Or.inr rfl, ?_, 540, by decide, by decide, by decide⟩
  intro e he
  injection he with h
  subst h
  decide

/-- A slot of the fixed enumeration always parses, so `check_overlap`
never raises on it. -/
theorem allSlots_parse : ∀ s ∈ allSlots, (parseSlot s).isSome = true := by decide

/-- C2: `availableSlots` returns exactly the slot labels of the
30-minute enumeration from business open 09:00 to business close 20:00
for which `hasOverlap` is false, in enumeration order (it is a sublist
of the enumeration); for an employee with zero existing bookings on the
date it returns all 22 slots, 09:00 through 19:30. -/
theorem C2_available_slots :
    (∀ (appts : List Appointment) (employee : String) (date duration : Int) (s : String),
      s ∈ get_available_slots appts employee date duration ↔
        s ∈ allSlots ∧ check_overlap appts employee date s duration none = some false)
    ∧ (∀ (appts : List Appointment) (employee : String) (date duration : Int),
        List.Sublist (get_available_slots appts employee date duration) allSlots)
    ∧ (∀ (appts : List Appointment) (employee : String) (date duration : Int),
        (∀ a ∈ appts, ¬(a.employee = employee ∧ a.date = some date)) →
        get_available_slots appts employee date duration = allSlots)
    ∧ allSlots =
        ["09:00", "09:30", "10:00", "10:30", "11:00", "11:30", "12:00", "12:30",
         "13:00", "13:30", "14:00", "14:30", "15:00", "15:30", "16:00", "16:30",
         "17:00", "17:30", "18:00", "18:30", "19:00", "19:30"]
    ∧ allSlots.length = 22 := by
  refine ⟨?_, ?_, ?_, by decide, by decide⟩
  · intro appts employee date duration s
    simp [get_available_slots, List.mem_filter]
  · intro appts employee date duration
    exact List.filter_sublist allSlots
  · intro appts employee date duration h
    rw [get_available_slots, List.filter_eq_self]
    intro s _
    rw [decide_eq_true_eq]
    by_cases happts : appts.isEmpty
    · rw [check_overlap, if_pos happts]
    · rw [check_overlap, if_neg happts]
      have hnil : appts.filter (matchesFilter employee date) = [] := by
        rw [List.filter_eq_nil_iff]
        intro a ha hmf
        obtain ⟨hemp, hdate, _⟩ := matchesFilter_eq_true.mp hmf
        exact h a ha ⟨hemp, hdate⟩
      rw [hnil]
      rfl

/-- Witness for C2 at a concrete input: a table holding one booking of
a different employee leaves all 22 slots available. -/
theorem C2_available_slots_witness :
    get_available_slots
      [{ id := "APT1000", employee := "Someone", date := some 3, timeSlot := "09:00",
         duration := 30, status := "Confirmed" }] "Asha" 3 30 = allSlots :=
  C2_available_slots.2.2.1 _ "Asha" 3 30 (by decide)

/-- An `Option`-valued `mapM` fails as soon as one element fails
(the `ValueError` escaping the `max(...)` generator). -/
theorem mapM_eq_none {α β : Type} (f : α → Option β) (l : List α) (x : α)
    (hx : x ∈ l) (hf : f x = none) : l.mapM f = none := by
  induction l with
  | nil => cases hx
  | cons y ys ih =>
    rw [List.mapM_cons]
    rcases List.mem_cons.mp hx with h | h
    · subst h
      rw [hf]
      rfl
    · cases hy : f y with
      | none => rfl
      | some b =>
        rw [ih h]
        rfl

/-- C3: `createAppointment` generates the identifier as max numeric
suffix over `APT`-prefixed entries plus one, and yields `APT1000` when
the table is empty, when no entry matches the prefix, or when suffix
parsing fails; an empty table yields `APT1000` and a table holding
`APT1000 .. APT1007` yields `APT1008`. -/
theorem C3_new_id :
    (new_appointment_id [] = "APT1000")
    ∧ (∀ appts : List Appointment,
        (∀ a ∈ appts, startsWithAPT a.id = false) → new_appointment_id appts = "APT1000")
    ∧ (∀ appts : List Appointment,
        (∃ a ∈ appts, startsWithAPT a.id = true ∧ pyIntChars (replaceAPT a.id.data) = none) →
        new_appointment_id appts = "APT1000")
    ∧ (∀ (appts : List Appointment) (s : Int) (rest : List Int),
        apt_suffixes (appts.map (fun a => a.id)) = some (s :: rest) →
        new_appointment_id appts = "APT" ++ toString (rest.foldl max s + 1))
    ∧ new_appointment_id exampleAppts = "APT1008" := by
  refine ⟨by decide, ?_, ?_, ?_, by decide⟩
  · intro appts h
    cases happts : appts.isEmpty with
    | true => rw [new_appointment_id, if_pos happts]
    | false =>
      rw [new_appointment_id, if_neg (by simp [happts])]
      have hfil : (appts.map (fun a => a.id)).filter startsWithAPT = [] := by
        rw [List.filter_eq_nil_iff]
        intro i hi
        obtain ⟨a, ha, rfl⟩ := List.mem_map.mp hi
        simp [h a ha]
      rw [apt_suffixes, hfil]
      rfl
  · intro appts h
    obtain ⟨a, ha, hpre, hparse⟩ := h
    have hne : appts.isEmpty = false := by
      cases appts with
      | nil => cases ha
      | cons _ _ => rfl
    rw [new_appointment_id, if_neg (by simp [hne])]
    have : apt_suffixes (appts.map (fun a => a.id)) = none := by
      rw [apt_suffixes]
      exact mapM_eq_none _ _ a.id
        (List.mem_filter.mpr ⟨List.mem_map_of_mem _ ha, hpre⟩) hparse
    rw [this]
  · intro appts s rest h
    have hne : appts.isEmpty = false := by
      cases appts with
      | nil =>
        rw [show apt_suffixes (List.map (fun a => a.id) ([] : List Appointment)) = some []
          from rfl] at h
        simp at h
      | cons _ _ => rfl
    rw [new_appointment_id, if_neg (by simp [hne]), h]

/-- Witness for C3 at a concrete input: a nonempty table with no
`APT`-prefixed id falls back to `APT1000`. -/
theorem C3_new_id_witness :
    new_appointment_id
      [{ id := "XYZ7", employee := "Asha", date := some 0, timeSlot := "09:00",
         duration := 30, status := "Confirmed" }] = "APT1000" :=
  C3_new_id.2.1 _ (by decide)

/-- The exclude-id filter of the empty table is empty. -/
theorem applyExclude_nil (excludeId : Option String) : applyExclude excludeId [] = [] := by
  cases excludeId with
  | none => rfl
  | some e => by_cases he : e = "" <;> simp [applyExclude, he]

/-- Canonical form of `check_overlap` when the candidate slot parses:
the two early `return False` paths coincide with an empty `any`. -/
theorem check_overlap_of_parse (appts : List Appointment) (employee : String)
    (date : Int) (timeSlot : String) (reqStart duration : Int) (excludeId : Option String)
    (hts : parseSlot timeSlot = some reqStart) :
    check_overlap appts employee date timeSlot duration excludeId =
      some ((applyExclude excludeId (appts.filter (matchesFilter employee date))).any
        (rowOverlaps reqStart (reqStart + duration))) := by
  by_cases happts : appts.isEmpty
  · rw [List.isEmpty_iff] at happts
    subst happts
    rw [check_overlap]
    simp [applyExclude_nil]
  · rw [check_overlap, if_neg happts]
    by_cases hfil : (applyExclude excludeId (appts.filter (matchesFilter employee date))).isEmpty
    · rw [if_pos hfil]
      rw [List.isEmpty_iff] at hfil
      rw [hfil]
      rfl
    · rw [if_neg hfil, hts]

/-- C5: every stored row whose time-of-day fails to parse is skipped
rather than raising or blocking: for a parseable candidate slot,
`hasOverlap` on any table equals `hasOverlap` on the table with the
malformed rows removed. -/
theorem C5_malformed_rows_skipped (appts : List Appointment) (employee : String)
    (date : Int) (timeSlot : String) (reqStart duration : Int) (excludeId : Option String)
    (hts : parseSlot timeSlot = some reqStart) :
    check_overlap appts employee date timeSlot duration excludeId =
      check_overlap (appts.filter (fun a => (parseSlot a.timeSlot).isSome))
        employee date timeSlot duration excludeId := by
  rw [check_overlap_of_parse _ _ _ _ reqStart _ _ hts,
    check_overlap_of_parse _ _ _ _ reqStart _ _ hts]
  have hfil2 :
      applyExclude excludeId
          ((appts.filter (fun a => (parseSlot a.timeSlot).isSome)).filter
            (matchesFilter employee date)) =
        (applyExclude excludeId (appts.filter (matchesFilter employee date))).filter
          (fun a => (parseSlot a.timeSlot).isSome) := by
    rw [← applyExclude_filter]
    congr 1
    rw [List.filter_filter, List.filter_filter]
    exact List.filter_congr (fun a _ => Bool.and_comm _ _)
  rw [hfil2, any_rowOverlaps_filter]

/-- Witness for C5 at a concrete input: a table with one malformed-time
row and one well-formed row gives the same answer as with the malformed
row dropped. -/
theorem C5_malformed_rows_skipped_witness :
    check_overlap
        [{ id := "APT1000", employee := "Asha", date := some 0, timeSlot := "junk",
           duration := 30, status := "Confirmed" },
         { id := "APT1001", employee := "Asha", date := some 0, timeSlot := "09:00",
           duration := 30, status := "Confirmed" }] "Asha" 0 "09:00" 30 none =
      check_overlap
        ([{ id := "APT1000", employee := "Asha", date := some 0, timeSlot := "junk",
            duration := 30, status := "Confirmed" },
          { id := "APT1001", employee := "Asha", date := some 0, timeSlot := "09:00",
            duration := 30, status := "Confirmed" }].filter
          (fun a => (parseSlot a.timeSlot).isSome)) "Asha" 0 "09:00" 30 none :=
  C5_malformed_rows_skipped _ "Asha" 0 "09:00" 540 30 none (by decide)

/-- `check_overlap` can only report an overlap when the candidate slot
parses (otherwise it is one of the early `False` paths or the raise). -/
theorem parse_of_overlap_true {appts : List Appointment} {employee : String}
    {date : Int} {timeSlot : String} {duration : Int} {excludeId : Option String}
    (h : check_overlap appts employee date timeSlot duration excludeId = some true) :
    ∃ reqStart, parseSlot timeSlot = some reqStart := by
  cases hp : parseSlot timeSlot with
  | some r => exact ⟨r, rfl⟩
  | none =>
    exfalso
    rw [check_overlap] at h
    by_cases happts : appts.isEmpty
    · rw [if_pos happts] at h
      cases h
    · rw [if_neg happts] at h
      by_cases hfil :
          (applyExclude excludeId (appts.filter (matchesFilter employee date))).isEmpty
      · rw [if_pos hfil] at h
        cases h
      · rw [if_neg hfil, hp] at h
        cases h

/-- C10: slot availability is antitone in the requested duration — if
`hasOverlap` is true for duration `d₁ ≤ d₂` it is true for `d₂`, and
every slot returned by `availableSlots` for `d₂` is also returned for
`d₁` on the same table. -/
theorem C10_duration_antitone :
    (∀ (appts : List Appointment) (employee : String) (date : Int)
        (timeSlot : String) (d₁ d₂ : Int) (excludeId : Option String),
      d₁ ≤ d₂ →
      check_overlap appts employee date timeSlot d₁ excludeId = some true →
      check_overlap appts employee date timeSlot d₂ excludeId = some true)
    ∧ (∀ (appts : List Appointment) (employee : String) (date : Int) (d₁ d₂ : Int)
        (s : String),
      d₁ ≤ d₂ →
      s ∈ get_available_slots appts employee date d₂ →
      s ∈ get_available_slots appts employee date d₁) := by
  have mono : ∀ (appts : List Appointment) (employee : String) (date : Int)
      (timeSlot : String) (d₁ d₂ : Int) (excludeId : Option String),
      d₁ ≤ d₂ →
      check_overlap appts employee date timeSlot d₁ excludeId = some true →
      check_overlap appts employee date timeSlot d₂ excludeId = some true := by
    intro appts employee date timeSlot d₁ d₂ excludeId hle h
    obtain ⟨reqStart, hts⟩ := parse_of_overlap_true h
    rw [check_overlap_of_parse _ _ _ _ reqStart _ _ hts] at h ⊢
    rw [Option.some_inj] at h ⊢
    rw [List.any_eq_true] at h ⊢
    obtain ⟨a, ha, hov⟩ := h
    obtain ⟨es, hes, h1, h2⟩ := rowOverlaps_eq_true.mp hov
    exact ⟨a, ha, rowOverlaps_eq_true.mpr ⟨es, hes, h1, by omega⟩⟩
  refine ⟨mono, ?_⟩
  intro appts employee date d₁ d₂ s hle hs
  rw [get_available_slots, List.mem_filter] at hs ⊢
  obtain ⟨hmem, hfree⟩ := hs
  rw [decide_eq_true_eq] at hfree
  refine ⟨hmem, ?_⟩
  rw [decide_eq_true_eq]
  obtain ⟨reqStart, hts⟩ := by
    have := allSlots_parse s hmem
    rwa [Option.isSome_iff_exists] at this
  rw [check_overlap_of_parse _ _ _ _ reqStart _ _ hts]
  rw [check_overlap_of_parse _ _ _ _ reqStart _ _ hts] at hfree
  cases hany :
      (applyExclude none (appts.filter (matchesFilter employee date))).any
        (rowOverlaps reqStart (reqStart + d₁)) with
  | false => rfl
  | true =>
    exfalso
    have h2 : check_overlap appts employee date s d₂ none = some true := by
      refine mono appts employee date s d₁ d₂ none hle ?_
      rw [check_overlap_of_parse _ _ _ _ reqStart _ _ hts, hany]
    rw [check_overlap_of_parse _ _ _ _ reqStart _ _ hts] at h2
    rw [hfree] at h2
    cases h2

/-- Witness for C10 at a concrete input: a slot available at 60 minutes
is available at 30 minutes. -/
theorem C10_duration_antitone_witness :
    "09:00" ∈ get_available_slots
      [{ id := "APT1000", employee := "Asha", date := some 0, timeSlot := "10:00",
         duration := 30, status := "Confirmed" }] "Asha" 0 30 :=
  C10_duration_antitone.2 _ "Asha" 0 30 60 "09:00" (by decide) (by decide)

/-- C4 (the code violates it): `get_staff_attendance_stats`, alone among
the query functions, has no `df is None or df.empty` guard, so on a
missing (`None`) table it raises `AttributeError` at `df.copy()`, and on
the loader's column-less empty-table fallback it raises `KeyError` at
`df2["Date"]` — instead of the empty-but-correctly-shaped default the
spec requires of every public query function. -/
theorem C4_attendance_stats_raises :
    get_staff_attendance_stats_raw none =
      Except.error "AttributeError: NoneType object has no attribute copy"
    ∧ get_staff_attendance_stats_raw
        (some { hasDateCol := false, hasStaffNameCol := false, hasStatusCol := false,
                rows := [] }) = Except.error "KeyError: Date" :=
  ⟨rfl, rfl⟩

/-- C6 counterexample to the claim as stated: two transactions of the
same client today (and none earlier) are counted as 2 by
`new_and_repeated_clients`, while the count of distinct clients in the
"new" partition is 1. -/
theorem C6_counterexample :
    new_and_repeated_clients 10 c6Rows = (2, 0)
    ∧ new_and_repeated_clients_distinct 10 c6Rows = (1, 0) := by
  constructor <;> decide

/-- C6 (amended): the operation partitions today's transactions by
whether the client identifier appears (non-null) in any transaction
strictly before today, and returns the number of today's **rows**
(transactions) in each partition — not the number of distinct clients;
X with a transaction yesterday and one today is counted as repeated,
and Y with only a transaction today is counted as new. -/
theorem C6_row_counts :
    (∀ (today : Int) (rows : List SaleRow),
      (new_and_repeated_clients today rows).1 + (new_and_repeated_clients today rows).2 =
        (rows.filter (onDay today)).length)
    ∧ (∀ (today : Int) (rows : List SaleRow),
      (new_and_repeated_clients today rows).2 =
        (rows.filter (fun r => onDay today r &&
          decide (∃ r' ∈ rows, beforeDay today r' = true ∧ r'.phone = some (phone_str r)))).length)
    ∧ (∀ (today : Int) (rows : List SaleRow),
      (new_and_repeated_clients today rows).1 =
        (rows.filter (fun r => onDay today r &&
          !decide (∃ r' ∈ rows, beforeDay today r' = true ∧ r'.phone = some (phone_str r)))).length)
    ∧ new_and_repeated_clients 10 xyRows = (1, 1) := by
  have hseen : ∀ (today : Int) (rows : List SaleRow) (r : SaleRow),
      ((rows.filter (beforeDay today)).filterMap (fun r' => r'.phone)).contains (phone_str r) =
        decide (∃ r' ∈ rows, beforeDay today r' = true ∧ r'.phone = some (phone_str r)) := by
    intro today rows r
    rw [Bool.eq_iff_iff, decide_eq_true_eq, List.contains_iff_exists_mem_beq]
    constructor
    · rintro ⟨p, hp, hbeq⟩
      obtain ⟨r', hr', hphone⟩ := List.mem_filterMap.mp hp
      obtain ⟨hrmem, hbefore⟩ := List.mem_filter.mp hr'
      rw [beq_iff_eq] at hbeq
      subst hbeq
      exact ⟨r', hrmem, hbefore, hphone⟩
    · rintro ⟨r', hr', hbefore, hphone⟩
      exact ⟨phone_str r,
        List.mem_filterMap.mpr ⟨r', List.mem_filter.mpr ⟨hr', hbefore⟩, hphone⟩,
        beq_self_eq_true _⟩
  refine ⟨?_, ?_, ?_, by decide⟩
  · intro today rows
    simp only [new_and_repeated_clients]
    conv_rhs => rw [List.length_eq_length_filter_add
      (f := fun r => !((rows.filter (beforeDay today)).filterMap (fun r' => r'.phone)).contains
        (phone_str r))]
    congr 1
    refine congrArg List.length (List.filter_congr ?_)
    intro r _
    rw [Bool.not_not]
  · intro today rows
    simp only [new_and_repeated_clients]
    rw [List.filter_filter]
    refine congrArg List.length (List.filter_congr ?_)
    intro r _
    rw [hseen, Bool.and_comm]
  · intro today rows
    simp only [new_and_repeated_clients]
    rw [List.filter_filter]
    refine congrArg List.length (List.filter_congr ?_)
    intro r _
    rw [hseen, Bool.and_comm]

/-- An empty in-period selection of present amounts sums to exactly 0. -/
theorem sumBill_eq_zero {l : List SaleRow}
    (h : l.filterMap (fun r => r.billAmount) = []) : sumBill l = 0 := by
  rw [sumBill, h]
  rfl

/-- A row with a missing amount never contributes to a period sum. -/
theorem sumBill_cons_none {l : List SaleRow} {r : SaleRow} (h : r.billAmount = none)
    (p : SaleRow → Bool) : sumBill ((r :: l).filter p) = sumBill (l.filter p) := by
  rw [List.filter_cons]
  cases hp : p r with
  | false => simp
  | true =>
    simp only [if_pos]
    rw [sumBill, List.filterMap_cons_none h]
    rfl

/-- C7: each of the five period-sum queries (today, this week, this
month, previous week, previous month) returns exactly `0.0` when every
in-period amount is missing (in particular on an empty table), and a row
with a missing (NaN / non-numeric) amount is excluded from the sum
rather than treated as zero. -/
theorem C7_period_sums :
    (∀ (nowDay : Int) (rows : List SaleRow),
      (rows.filter (onDay nowDay)).filterMap (fun r => r.billAmount) = [] →
      today_sales nowDay rows = 0)
    ∧ (∀ (nowDay : Int) (rows : List SaleRow) (r : SaleRow), r.billAmount = none →
      today_sales nowDay (r :: rows) = today_sales nowDay rows)
    ∧ (∀ (w y : Int) (rows : List SaleRow),
      (rows.filter (inWeek w y)).filterMap (fun r => r.billAmount) = [] →
      weekly_service_sales w y rows = 0)
    ∧ (∀ (w y : Int) (rows : List SaleRow) (r : SaleRow), r.billAmount = none →
      weekly_service_sales w y (r :: rows) = weekly_service_sales w y rows)
    ∧ (∀ (m y : Int) (rows : List SaleRow),
      (rows.filter (inMonth m y)).filterMap (fun r => r.billAmount) = [] →
      monthly_service_sales m y rows = 0)
    ∧ (∀ (m y : Int) (rows : List SaleRow) (r : SaleRow), r.billAmount = none →
      monthly_service_sales m y (r :: rows) = monthly_service_sales m y rows)
    ∧ (∀ (pw py : Int) (rows : List SaleRow),
      (rows.filter (inWeek pw py)).filterMap (fun r => r.billAmount) = [] →
      prev_week_service_sales pw py rows = 0)
    ∧ (∀ (pw py : Int) (rows : List SaleRow) (r : SaleRow), r.billAmount = none →
      prev_week_service_sales pw py (r :: rows) = prev_week_service_sales pw py rows)
    ∧ (∀ (pm py : Int) (rows : List SaleRow),
      (rows.filter (inMonth pm py)).filterMap (fun r => r.billAmount) = [] →
      prev_month_service_sales pm py rows = 0)
    ∧ (∀ (pm py : Int) (rows : List SaleRow) (r : SaleRow), r.billAmount = none →
      prev_month_service_sales pm py (r :: rows) = prev_month_service_sales pm py rows) := by
  refine ⟨fun _ _ h => sumBill_eq_zero h, fun _ _ _ h => sumBill_cons_none h _,
    fun _ _ _ h => sumBill_eq_zero h, fun _ _ _ _ h => sumBill_cons_none h _,
    fun _ _ _ h => sumBill_eq_zero h, fun _ _ _ _ h => sumBill_cons_none h _,
    fun _ _ _ h => sumBill_eq_zero h, fun _ _ _ _ h => sumBill_cons_none h _,
    fun _ _ _ h => sumBill_eq_zero h, fun _ _ _ _ h => sumBill_cons_none h _⟩

/-- Witness for C7 at concrete inputs: a one-row table whose only
in-period amount is missing sums to 0 for each period query, and
prepending a missing-amount row changes nothing. -/
theorem C7_period_sums_witness :
    today_sales 5 [⟨"a", none, some ⟨5, 1, 1, 2026⟩, none⟩] = 0
    ∧ weekly_service_sales 1 2026 [] = 0
    ∧ monthly_service_sales 1 2026 [] = 0
    ∧ prev_week_service_sales 52 2025 [] = 0
    ∧ prev_month_service_sales 12 2025 [] = 0
    ∧ today_sales 5 [⟨"a", none, some ⟨5, 1, 1, 2026⟩, none⟩] = today_sales 5 [] :=
  ⟨C7_period_sums.1 5 _ rfl,
   C7_period_sums.2.2.1 1 2026 [] rfl,
   C7_period_sums.2.2.2.2.1 1 2026 [] rfl,
   C7_period_sums.2.2.2.2.2.2.1 52 2025 [] rfl,
   C7_period_sums.2.2.2.2.2.2.2.2.1 12 2025 [] rfl,
   C7_period_sums.2.1 5 [] _ rfl⟩

/-- Deduplicating a nonempty constant list leaves one element. -/
theorem dedup_replicate_of_pos {α : Type} [DecidableEq α] (a : α) :
    ∀ n : Nat, n ≠ 0 → (List.replicate n a).dedup = [a] := by
  intro n
  induction n with
  | zero => intro h; exact absurd rfl h
  | succ m ih =>
    intro _
    rw [List.replicate_succ]
    cases m with
    | zero => rfl
    | succ k =>
      rw [List.dedup_cons_of_mem]
      · exact ih (Nat.succ_ne_zero k)
      · rw [List.mem_replicate]
        exact ⟨Nat.succ_ne_zero k, rfl⟩

/-- `round((27/30)*100, 2)` is exactly 90. -/
theorem round2_example : round2 ((27 : ℚ) / (30 : ℚ) * 100) = 90 := by
  rw [round2, show ((27 : ℚ) / (30 : ℚ) * 100) * 100 = ((9000 : ℤ) : ℚ) by norm_num,
    round_intCast]
  norm_num

/-- C8: the attendance-percentage operation groups rows by staff name,
counts the rows and the rows with status `Present` of each staff member,
and reports `present/total × 100` rounded to 2 decimals; for a staff
member with 30 rows of which 27 are `Present` the percentage is
exactly 90. -/
theorem C8_attendance_stats :
    (∀ (rows : List AttRow) (n : String), (∃ r ∈ rows, r.staffName = n) →
      ({ staffName := n,
         total_days := (rows.filter (fun r => r.staffName == n)).length,
         present_days :=
           ((rows.filter (fun r => r.staffName == n)).filter
             (fun r => r.status == "Present")).length,
         attendance_pct :=
           round2 ((((rows.filter (fun r => r.staffName == n)).filter
               (fun r => r.status == "Present")).length : ℚ) /
             ((rows.filter (fun r => r.staffName == n)).length : ℚ) * 100) } : AttStat) ∈
        get_staff_attendance_stats rows)
    ∧ get_staff_attendance_stats exampleAttTable =
        [{ staffName := "A", total_days := 30, present_days := 27, attendance_pct := 90 }] := by
  constructor
  · intro rows n hn
    have hkey : n ∈ ((rows.map (fun r => r.staffName)).dedup).insertionSort (fun a b => a ≤ b) := by
      rw [List.mem_insertionSort, List.mem_dedup]
      obtain ⟨r, hr, hrn⟩ := hn
      exact hrn ▸ List.mem_map_of_mem _ hr
    simp only [get_staff_attendance_stats]
    exact List.mem_map_of_mem _ hkey
  · have hmapA : exampleAttTable.map (fun r => r.staffName) = List.replicate 30 "A" := by
      rw [exampleAttTable, List.map_append, List.map_replicate, List.map_replicate]
      rw [show (30 : Nat) = 27 + 3 from rfl, List.replicate_add]
    have hgrp : exampleAttTable.filter (fun r => r.staffName == "A") = exampleAttTable := by
      rw [List.filter_eq_self]
      intro r hr
      rw [exampleAttTable] at hr
      rcases List.mem_append.mp hr with h | h <;>
        rw [List.eq_of_mem_replicate h] <;> decide
    have hpres : exampleAttTable.filter (fun r => r.status == "Present") =
        List.replicate 27 { staffName := "A", date := none, status := "Present" } := by
      rw [exampleAttTable, List.filter_append,
        List.filter_replicate_of_pos (by decide), List.filter_replicate_of_neg (by decide),
        List.append_nil]
    simp only [get_staff_attendance_stats, hmapA,
      dedup_replicate_of_pos "A" 30 (by omega)]
    rw [show (List.insertionSort (fun a b => a ≤ b) ["A"]) = ["A"] from rfl]
    simp only [List.map_cons, List.map_nil, hgrp, hpres]
    rw [exampleAttTable]
    simp only [List.length_append, List.length_replicate]
    rw [show ((27 : Nat) : ℚ) / ((27 + 3 : Nat) : ℚ) * 100 = (27 : ℚ) / (30 : ℚ) * 100
      by norm_num]
    rw [round2_example]

/-- Witness for C8 at a concrete input: staff `A` with two rows, one of
them `Present`, appears in the grouped output with its counts and
rounded percentage. -/
theorem C8_attendance_stats_witness :
    ({ staffName := "A",
       total_days := ([({ staffName := "A", date := none, status := "Present" } : AttRow),
          { staffName := "A", date := none, status := "Absent" }].filter
            (fun r => r.staffName == "A")).length,
       present_days :=
         (([({ staffName := "A", date := none, status := "Present" } : AttRow),
            { staffName := "A", date := none, status := "Absent" }].filter
              (fun r => r.staffName == "A")).filter (fun r => r.status == "Present")).length,
       attendance_pct :=
         round2 (((([({ staffName := "A", date := none, status := "Present" } : AttRow),
               { staffName := "A", date := none, status := "Absent" }].filter
                 (fun r => r.staffName == "A")).filter
               (fun r => r.status == "Present")).length : ℚ) /
           (([({ staffName := "A", date := none, status := "Present" } : AttRow),
              { staffName := "A", date := none, status := "Absent" }].filter
                (fun r => r.staffName == "A")).length : ℚ) * 100) } : AttStat) ∈
      get_staff_attendance_stats
        [{ staffName := "A", date := none, status := "Present" },
         { staffName := "A", date := none, status := "Absent" }] :=
  C8_attendance_stats.1 _ "A"
    ⟨{ staffName := "A", date := none, status := "Present" }, by decide, rfl⟩

/-- `pd.date_range(a, b)` holds exactly the days of the inclusive
interval `[a, b]`. -/
theorem mem_dateRange {d a b : Int} : d ∈ dateRange a b ↔ a ≤ d ∧ d ≤ b := by
  rw [dateRange, List.mem_map]
  constructor
  · rintro ⟨i, hi, rfl⟩
    rw [List.mem_range] at hi
    constructor
    · show a ≤ a + (i : ℤ)
      omega
    · show a + (i : ℤ) ≤ b
      omega
  · rintro ⟨h1, h2⟩
    refine ⟨(d - a).toNat, ?_, ?_⟩
    · rw [List.mem_range]
      omega
    · show a + ((d - a).toNat : ℤ) = d
      omega

/-- C9: the leave-calendar expansion holds one entry per staff member
per day of each Approved leave's inclusive `[from, to]` range; each
reported per-day count is the number of expansion entries of that day;
non-Approved leaves contribute nothing; and a single Approved leave from
day `D` to day `D + 2` contributes exactly the three entries `D`,
`D + 1`, `D + 2`, each with count 1. -/
theorem C9_leave_calendar :
    (∀ (rows : List LeaveRow) (x : LeaveDay),
      x ∈ leave_days rows ↔
        ∃ r ∈ rows, r.status = "Approved" ∧
          ∃ a b, r.fromDate = some a ∧ r.toDate = some b ∧
            a ≤ x.date ∧ x.date ≤ b ∧ x.staff = r.staffName)
    ∧ (∀ (rows : List LeaveRow) (d : Int) (c : Nat),
      (d, c) ∈ get_leave_calendar_data rows →
      c = ((leave_days rows).filter (fun x => x.date == d)).length)
    ∧ (∀ (r : LeaveRow) (rows : List LeaveRow), r.status ≠ "Approved" →
      get_leave_calendar_data (r :: rows) = get_leave_calendar_data rows)
    ∧ (∀ (D : Int) (name : String),
      get_leave_calendar_data [⟨name, some D, some (D + 2), "Approved"⟩] =
        [(D, 1), (D + 1, 1), (D + 2, 1)]) := by
  refine ⟨?_, ?_, ?_, ?_⟩
  · intro rows x
    rw [leave_days, List.mem_flatten]
    constructor
    · rintro ⟨l, hl, hxl⟩
      obtain ⟨r, hr, rfl⟩ := List.mem_map.mp hl
      obtain ⟨hrmem, happ⟩ := List.mem_filter.mp hr
      refine ⟨r, hrmem, by rwa [beq_iff_eq] at happ, ?_⟩
      cases hf : r.fromDate with
      | none => rw [hf] at hxl; cases hxl
      | some a =>
        cases ht : r.toDate with
        | none => rw [hf, ht] at hxl; cases hxl
        | some b =>
          rw [hf, ht] at hxl
          obtain ⟨d, hd, rfl⟩ := List.mem_map.mp hxl
          obtain ⟨h1, h2⟩ := mem_dateRange.mp hd
          exact ⟨a, b, rfl, rfl, h1, h2, rfl⟩
    · rintro ⟨r, hrmem, happ, a, b, hf, ht, h1, h2, hstaff⟩
      refine ⟨_, List.mem_map_of_mem _ (List.mem_filter.mpr ⟨hrmem, ?_⟩), ?_⟩
      · rw [beq_iff_eq]
        exact happ
      · rw [hf, ht]
        refine List.mem_map.mpr ⟨x.date, mem_dateRange.mpr ⟨h1, h2⟩, ?_⟩
        cases x with
        | mk xd xs =>
          simp only at hstaff
          rw [hstaff]
  · intro rows d c hmem
    simp only [get_leave_calendar_data] at hmem
    obtain ⟨k, hk, heq⟩ := List.mem_map.mp hmem
    rw [Prod.mk.injEq] at heq
    obtain ⟨h1, h2⟩ := heq
    subst h1
    exact h2.symm
  · intro r rows hst
    have hld : leave_days (r :: rows) = leave_days rows := by
      rw [leave_days, leave_days, List.filter_cons,
        if_neg (by rw [beq_iff_eq]; simpa using hst)]
    simp only [get_leave_calendar_data, hld]
  · intro D name
    have hrange : dateRange D (D + 2) = [D, D + 1, D + 2] := by
      rw [dateRange, show D + 2 + 1 - D = (3 : ℤ) by ring,
        show ((3 : ℤ)).toNat = 3 from rfl,
        show List.range 3 = [0, 1, 2] from rfl]
      simp
    have hentries : leave_days [⟨name, some D, some (D + 2), "Approved"⟩] =
        [⟨D, name⟩, ⟨D + 1, name⟩, ⟨D + 2, name⟩] := by
      rw [leave_days]
      rw [show List.filter (fun r => r.status == "Approved")
          [(⟨name, some D, some (D + 2), "Approved"⟩ : LeaveRow)] =
          [⟨name, some D, some (D + 2), "Approved"⟩] from rfl]
      simp only [List.map_cons, List.map_nil, hrange, List.flatten]
      simp
    simp only [get_leave_calendar_data, hentries]
    have hd1 : ¬(D + 1 = D) := by omega
    have hd2 : ¬(D + 2 = D) := by omega
    have hd12 : ¬(D + 2 = D + 1) := by omega
    have hmap : ([⟨D, name⟩, ⟨D + 1, name⟩, ⟨D + 2, name⟩] : List LeaveDay).map
        (fun x => x.date) = [D, D + 1, D + 2] := rfl
    rw [hmap]
    have hdedup : ([D, D + 1, D + 2] : List Int).dedup = [D, D + 1, D + 2] := by
      rw [List.dedup_cons_of_not_mem
          (by simp only [List.mem_cons, List.not_mem_nil, or_false]; omega),
        List.dedup_cons_of_not_mem
          (by simp only [List.mem_cons, List.not_mem_nil, or_false]; omega)]
      rfl
    rw [hdedup]
    have hsort : ([D, D + 1, D + 2] : List Int).insertionSort (fun a b => a ≤ b) =
        [D, D + 1, D + 2] := by
      simp [List.insertionSort, List.orderedInsert,
        show (D : ℤ) ≤ D + 1 by omega, show (D + 1 : ℤ) ≤ D + 2 by omega]
    rw [hsort]
    have n21 : ((D + 1 : ℤ) == D) = false := by rw [beq_eq_false_iff_ne]; omega
    have n31 : ((D + 2 : ℤ) == D) = false := by rw [beq_eq_false_iff_ne]; omega
    have n12 : ((D : ℤ) == D + 1) = false := by rw [beq_eq_false_iff_ne]; omega
    have n32 : ((D + 2 : ℤ) == D + 1) = false := by rw [beq_eq_false_iff_ne]; omega
    have n13 : ((D : ℤ) == D + 2) = false := by rw [beq_eq_false_iff_ne]; omega
    have n23 : ((D + 1 : ℤ) == D + 2) = false := by rw [beq_eq_false_iff_ne]; omega
    simp [List.filter_cons, beq_self_eq_true, n21, n31, n12, n32, n13, n23]

/-- Witness for C9 at concrete inputs: a `Pending` leave contributes
nothing, and the reported count of a day equals the number of expansion
entries of that day. -/
theorem C9_leave_calendar_witness :
    get_leave_calendar_data [(⟨"S", some 1, some 2, "Pending"⟩ : LeaveRow)] =
      get_leave_calendar_data []
    ∧ (1 : Nat) =
      ((leave_days [(⟨"S", some 5, some 5, "Approved"⟩ : LeaveRow)]).filter
        (fun x => x.date == 5)).length :=
  ⟨C9_leave_calendar.2.2.1 ⟨"S", some 1, some 2, "Pending"⟩ [] (by decide),
   C9_leave_calendar.2.1 [⟨"S", some 5, some 5, "Approved"⟩] 5 1 (by decide)⟩

end Dashboard
